import Mathlib

/-!
Shallow embedding of the daily-word-challenge server actions
(src/src/actions/index.ts) and their astro:db tables (db/tables.ts).

Tables become Lean structures; the three relations live in a `DB` record.
Each action handler becomes a pure function from the optional authenticated
user, its input, an abstract clock value `now`, and the database state to
its result.  Database accesses performed by a handler are reported in a
`List DbOp` trace so that "no storage access happened" is a provable
statement.  Server errors (`ActionError`) become the `ActionErr` type and
handlers return `Except ActionErr _`.
-/

namespace DailyWordChallenge

/-- Difficulty enum of the DailyChallenges table (easy / medium / hard). -/
inductive Difficulty where
  | easy
  | medium
  | hard
deriving DecidableEq, Repr

/-- One row of the DailyChallenges table. `meta` (a JSON column) is kept as
an opaque optional string; `createdAt` is an abstract timestamp. -/
structure Challenge where
  id : Int
  challengeDate : String
  language : String
  word : String
  definition : Option String
  exampleSentence : Option String
  hint : Option String
  difficulty : Difficulty
  meta : Option String
  isActive : Bool
  createdAt : Nat
deriving DecidableEq, Repr

/-- One row of the DailyChallengeAttempts table. -/
structure Attempt where
  id : Int
  challengeId : Int
  userId : String
  guess : String
  isCorrect : Bool
  attemptNumber : Int
  createdAt : Nat
deriving DecidableEq, Repr

/-- One row of the UserChallengeStats table.  `lastPlayedDate` and
`lastSolvedDate` are optional text columns. -/
structure UserStats where
  id : Int
  userId : String
  totalPlayed : Nat
  totalSolved : Nat
  currentStreak : Nat
  bestStreak : Nat
  lastPlayedDate : Option String
  lastSolvedDate : Option String
  updatedAt : Nat
deriving DecidableEq, Repr

/-- The resolved identity (`context.locals.user`); only its id is used. -/
structure User where
  id : String
deriving DecidableEq, Repr

/-- The three relations plus the auto-increment counters the inserts draw
fresh primary keys from. -/
structure DB where
  dailyChallenges : List Challenge
  dailyChallengeAttempts : List Attempt
  userChallengeStats : List UserStats
  nextAttemptId : Int
  nextStatsId : Int
deriving DecidableEq, Repr

/-- A single database access performed by a handler, recorded in the trace
a handler returns. -/
inductive DbOp where
  | selectChallenges
  | insertAttempt
  | selectStats
  | updateStats
  | insertStats
  | selectAttempts
deriving DecidableEq, Repr

/-- The two ActionError codes the embedded handlers can throw. -/
inductive ActionErr where
  | unauthorized
  | notFound
deriving DecidableEq, Repr

/-- Input of recordAttempt: challengeId (int), guess, and the two optional
fields isCorrect and attemptNumber. -/
structure RecordInput where
  challengeId : Int
  guess : String
  isCorrect : Option Bool
  attemptNumber : Option Int
deriving DecidableEq, Repr

/-- Input object of listAttempts (itself optional at the call site), with
its optional challengeId filter. -/
structure ListInput where
  challengeId : Option Int
deriving DecidableEq, Repr

/-- The stats transition of recordAttempt (the `updatedStats` constant,
lines 174-197): from the optionally existing row and the outcome, compute
the row that is written back.  For an existing row the update call site
spreads `{...existingStats, ...updatedStats, updatedAt: new Date()}`, which
is folded here into a single record update; for a fresh user the insert
assigns the row id, so `id` is a placeholder 0 here and is overwritten by
`statsWrite`. -/
def updatedStats (existingStats : Option UserStats) (isCorrect : Bool)
    (today : String) (userId : String) (now : Nat) : UserStats :=
  match existingStats with
  | some prior =>
      { prior with
        totalPlayed := prior.totalPlayed + 1
        totalSolved := prior.totalSolved + (if isCorrect then 1 else 0)
        currentStreak := if isCorrect then prior.currentStreak + 1 else 0
        bestStreak :=
          if isCorrect then max prior.bestStreak (prior.currentStreak + 1)
          else prior.bestStreak
        lastPlayedDate := some today
        lastSolvedDate := if isCorrect then some today else prior.lastSolvedDate
        updatedAt := now }
  | none =>
      { id := 0
        userId := userId
        totalPlayed := 1
        totalSolved := if isCorrect then 1 else 0
        currentStreak := if isCorrect then 1 else 0
        bestStreak := if isCorrect then 1 else 0
        lastPlayedDate := some today
        lastSolvedDate := if isCorrect then some today else none
        updatedAt := now }

/-- The stats read of recordAttempt / getStats: select from
UserChallengeStats where userId = user.id, limit 1. -/
def statsRead (db : DB) (userId : String) : Option UserStats :=
  db.userChallengeStats.find? (fun s => s.userId == userId)

/-- The stats write-back of recordAttempt: update the row with the
existing row's id when one was read, otherwise insert a fresh row (the
insert assigns the auto-increment id). -/
def statsWrite (db : DB) (existingStats : Option UserStats)
    (next : UserStats) : DB :=
  match existingStats with
  | some prior =>
      { db with
        userChallengeStats :=
          db.userChallengeStats.map
            (fun r => if r.id == prior.id then { next with id := prior.id } else r) }
  | none =>
      { db with
        userChallengeStats :=
          db.userChallengeStats ++ [{ next with id := db.nextStatsId }]
        nextStatsId := db.nextStatsId + 1 }

/-- The recordAttempt handler.  requireUser is the initial match on the
optional user; then the challenge is selected and checked for existence
and isActive; then the attempt row is inserted; then the stats row is
read, transitioned via `updatedStats`, and written back. -/
def recordAttempt (user : Option User) (input : RecordInput) (now : Nat)
    (db : DB) : Except ActionErr Attempt × DB × List DbOp :=
  match user with
  | none => (.error .unauthorized, db, [])
  | some u =>
    match db.dailyChallenges.find? (fun c => c.id == input.challengeId) with
    | none => (.error .notFound, db, [.selectChallenges])
    | some challenge =>
      if challenge.isActive then
        let attempt : Attempt :=
          { id := db.nextAttemptId
            challengeId := input.challengeId
            userId := u.id
            guess := input.guess
            isCorrect := input.isCorrect.getD false
            attemptNumber := input.attemptNumber.getD 1
            createdAt := now }
        let db1 : DB :=
          { db with
            dailyChallengeAttempts := db.dailyChallengeAttempts ++ [attempt]
            nextAttemptId := db.nextAttemptId + 1 }
        let existingStats := statsRead db1 u.id
        let isCorrect := input.isCorrect.getD false
        let today := challenge.challengeDate
        let next := updatedStats existingStats isCorrect today u.id now
        let db2 := statsWrite db1 existingStats next
        let ops : List DbOp :=
          match existingStats with
          | some _ => [.selectChallenges, .insertAttempt, .selectStats, .updateStats]
          | none => [.selectChallenges, .insertAttempt, .selectStats, .insertStats]
        (.ok attempt, db2, ops)
      else
        (.error .notFound, db, [.selectChallenges])

/-- The listAttempts handler: select the user's attempts, then filter by
challengeId only when `input?.challengeId` is truthy — a challengeId of 0
is falsy in the source, so no filter is applied for it. -/
def listAttempts (user : Option User) (input : Option ListInput) (db : DB) :
    Except ActionErr (List Attempt) × List DbOp :=
  match user with
  | none => (.error .unauthorized, [])
  | some u =>
    let attempts := db.dailyChallengeAttempts.filter (fun a => a.userId == u.id)
    let filtered :=
      match input with
      | some i =>
        match i.challengeId with
        | some c =>
          if c == 0 then attempts
          else attempts.filter (fun a => a.challengeId == c)
        | none => attempts
      | none => attempts
    (.ok filtered, [.selectAttempts])

/-- The getStats handler: select the user's stats row, returning it or
null. -/
def getStats (user : Option User) (db : DB) :
    Except ActionErr (Option UserStats) × List DbOp :=
  match user with
  | none => (.error .unauthorized, [])
  | some u => (.ok (statsRead db u.id), [.selectStats])

/-- Iterated application of the stats transition: each step carries the
outcome, the challenge date, and the clock value of that application. -/
def applySeq (userId : String) :
    List (Bool × String × Nat) → Option UserStats → Option UserStats
  | [], acc => acc
  | (isCorrect, date, now) :: rest, acc =>
      applySeq userId rest (some (updatedStats acc isCorrect date userId now))

/-!
Theorems settling the claims.
-/

/-- C1: the stats transition follows the four-row table of §4.2 exactly:
fresh+correct gives (1,1,1,1, playedDate, playedDate); fresh+incorrect
gives (1,0,0,0, playedDate, unset); existing+correct gives (+1, +1,
prior+1, max(prior.best, prior.current+1), playedDate, playedDate);
existing+incorrect gives (+1, +0, 0, unchanged, playedDate, unchanged). -/
theorem updatedStats_transition_table (prior : UserStats) (d uid : String)
    (t : Nat) :
    ((updatedStats none true d uid t).totalPlayed = 1 ∧
     (updatedStats none true d uid t).totalSolved = 1 ∧
     (updatedStats none true d uid t).currentStreak = 1 ∧
     (updatedStats none true d uid t).bestStreak = 1 ∧
     (updatedStats none true d uid t).lastPlayedDate = some d ∧
     (updatedStats none true d uid t).lastSolvedDate = some d) ∧
    ((updatedStats none false d uid t).totalPlayed = 1 ∧
     (updatedStats none false d uid t).totalSolved = 0 ∧
     (updatedStats none false d uid t).currentStreak = 0 ∧
     (updatedStats none false d uid t).bestStreak = 0 ∧
     (updatedStats none false d uid t).lastPlayedDate = some d ∧
     (updatedStats none false d uid t).lastSolvedDate = none) ∧
    ((updatedStats (some prior) true d uid t).totalPlayed = prior.totalPlayed + 1 ∧
     (updatedStats (some prior) true d uid t).totalSolved = prior.totalSolved + 1 ∧
     (updatedStats (some prior) true d uid t).currentStreak = prior.currentStreak + 1 ∧
     (updatedStats (some prior) true d uid t).bestStreak
        = max prior.bestStreak (prior.currentStreak + 1) ∧
     (updatedStats (some prior) true d uid t).lastPlayedDate = some d ∧
     (updatedStats (some prior) true d uid t).lastSolvedDate = some d) ∧
    ((updatedStats (some prior) false d uid t).totalPlayed = prior.totalPlayed + 1 ∧
     (updatedStats (some prior) false d uid t).totalSolved = prior.totalSolved ∧
     (updatedStats (some prior) false d uid t).currentStreak = 0 ∧
     (updatedStats (some prior) false d uid t).bestStreak = prior.bestStreak ∧
     (updatedStats (some prior) false d uid t).lastPlayedDate = some d ∧
     (updatedStats (some prior) false d uid t).lastSolvedDate = prior.lastSolvedDate) := by
  simp [updatedStats]

/-- C5: with no resolved user, recordAttempt, listAttempts and getStats
all fail with the authorization error and their database-access trace is
empty, and recordAttempt leaves the database unchanged. -/
theorem unauthenticated_no_storage_access (input : RecordInput)
    (li : Option ListInput) (now : Nat) (db : DB) :
    recordAttempt none input now db = (.error .unauthorized, db, []) ∧
    listAttempts none li db = (.error .unauthorized, []) ∧
    getStats none db = (.error .unauthorized, []) :=
  ⟨rfl, rfl, rfl⟩

/-- C6: with an existing stats row, the four counted fields of the
transition result do not depend on the played date, and a correct outcome
increments currentStreak by 1 regardless of any calendar gap. -/
theorem updatedStats_date_independent (prior : UserStats) (b : Bool)
    (d1 d2 uid : String) (t : Nat) :
    (updatedStats (some prior) b d1 uid t).totalPlayed
      = (updatedStats (some prior) b d2 uid t).totalPlayed ∧
    (updatedStats (some prior) b d1 uid t).totalSolved
      = (updatedStats (some prior) b d2 uid t).totalSolved ∧
    (updatedStats (some prior) b d1 uid t).currentStreak
      = (updatedStats (some prior) b d2 uid t).currentStreak ∧
    (updatedStats (some prior) b d1 uid t).bestStreak
      = (updatedStats (some prior) b d2 uid t).bestStreak ∧
    (updatedStats (some prior) true d1 uid t).currentStreak
      = prior.currentStreak + 1 := by
  simp [updatedStats]

/-- C7: the transition is not idempotent: applying the same outcome twice
in succession adds 2 to totalPlayed (from any prior state, present or
absent), and a correct outcome applied twice adds 2 to totalSolved and
extends currentStreak by 2. -/
theorem updatedStats_not_idempotent (prior : Option UserStats) (b : Bool)
    (d1 d2 uid : String) (t1 t2 : Nat) :
    (updatedStats (some (updatedStats prior b d1 uid t1)) b d2 uid t2).totalPlayed
      = prior.elim 0 UserStats.totalPlayed + 2 ∧
    (updatedStats (some (updatedStats prior true d1 uid t1)) true d2 uid t2).totalSolved
      = prior.elim 0 UserStats.totalSolved + 2 ∧
    (updatedStats (some (updatedStats prior true d1 uid t1)) true d2 uid t2).currentStreak
      = prior.elim 0 UserStats.currentStreak + 2 := by
  cases prior <;> cases b <;> simp [updatedStats]

/-- C10: for an authenticated user, listAttempts with challengeId = 0
returns all of that user's attempts — the zero filter value is falsy, so
the call behaves exactly like a call with no filter at all. -/
theorem listAttempts_zero_challengeId (u : User) (db : DB) :
    listAttempts (some u) (some { challengeId := some 0 }) db
      = (.ok (db.dailyChallengeAttempts.filter (fun a => a.userId == u.id)),
         [.selectAttempts]) ∧
    listAttempts (some u) (some { challengeId := some 0 }) db
      = listAttempts (some u) none db := by
  constructor <;> rfl

/-- Helper: writing the stats row back never touches the attempts
relation. -/
theorem statsWrite_attempts (db : DB) (es : Option UserStats) (n : UserStats) :
    (statsWrite db es n).dailyChallengeAttempts = db.dailyChallengeAttempts := by
  cases es <;> rfl

/-- C4: when the referenced challenge is missing, or present but
inactive, recordAttempt fails with the not-found error, the database is
unchanged, and the only storage access is the challenge select — no
attempt insert and no stats read or write. -/
theorem recordAttempt_missing_or_inactive (u : User) (input : RecordInput)
    (now : Nat) (db : DB)
    (h : ((db.dailyChallenges.find? (fun c => c.id == input.challengeId)).map
            Challenge.isActive).getD false = false) :
    recordAttempt (some u) input now db
      = (.error .notFound, db, [.selectChallenges]) := by
  unfold recordAttempt
  cases hf : db.dailyChallenges.find? (fun c => c.id == input.challengeId) with
  | none => rfl
  | some c =>
    rw [hf] at h
    simp at h
    simp [h]

/-- Fixture: an inactive challenge with id 1. -/
def sampleInactiveChallenge : Challenge :=
  { id := 1, challengeDate := "2025-01-01", language := "en", word := "apple",
    definition := none, exampleSentence := none, hint := none,
    difficulty := .medium, meta := none, isActive := false, createdAt := 0 }

/-- Fixture: a database holding only the inactive challenge. -/
def sampleInactiveDb : DB :=
  { dailyChallenges := [sampleInactiveChallenge],
    dailyChallengeAttempts := [],
    userChallengeStats := [],
    nextAttemptId := 1,
    nextStatsId := 1 }

/-- Witness for C4 at a concrete inactive challenge. -/
theorem recordAttempt_missing_or_inactive_witness :
    recordAttempt (some { id := "u" })
        { challengeId := 1, guess := "apple", isCorrect := some true,
          attemptNumber := none } 0 sampleInactiveDb
      = (.error .notFound, sampleInactiveDb, [.selectChallenges]) :=
  recordAttempt_missing_or_inactive { id := "u" }
    { challengeId := 1, guess := "apple", isCorrect := some true,
      attemptNumber := none } 0 sampleInactiveDb (by decide)

/-- C8: omitting isCorrect behaves as supplying false and omitting
attemptNumber behaves as supplying 1 — the whole call, persisted rows and
stats transition included, is identical to the call with the defaults
written out — and the result is the persisted attempt row, carrying the
server-assigned id and timestamp, exactly as appended to the attempts
relation. -/
theorem recordAttempt_defaults_and_result (u : User) (cid : Int) (g : String)
    (now : Nat) (db : DB) (ch : Challenge)
    (hfind : db.dailyChallenges.find? (fun c => c.id == cid) = some ch)
    (hact : ch.isActive = true) :
    recordAttempt (some u)
        { challengeId := cid, guess := g, isCorrect := none, attemptNumber := none }
        now db
      = recordAttempt (some u)
          { challengeId := cid, guess := g, isCorrect := some false,
            attemptNumber := some 1 } now db ∧
    (recordAttempt (some u)
        { challengeId := cid, guess := g, isCorrect := none, attemptNumber := none }
        now db).1
      = .ok { id := db.nextAttemptId, challengeId := cid, userId := u.id,
              guess := g, isCorrect := false, attemptNumber := 1,
              createdAt := now } ∧
    (recordAttempt (some u)
        { challengeId := cid, guess := g, isCorrect := none, attemptNumber := none }
        now db).2.1.dailyChallengeAttempts
      = db.dailyChallengeAttempts ++
        [{ id := db.nextAttemptId, challengeId := cid, userId := u.id,
           guess := g, isCorrect := false, attemptNumber := 1,
           createdAt := now }] := by
  refine ⟨?_, ?_, ?_⟩ <;>
    simp [recordAttempt, hfind, hact, statsWrite_attempts]

/-- Fixture: a single active challenge with id 1. -/
def sampleActiveChallenge : Challenge :=
  { id := 1, challengeDate := "2025-01-01", language := "en", word := "apple",
    definition := none, exampleSentence := none, hint := none,
    difficulty := .medium, meta := none, isActive := true, createdAt := 0 }

/-- Fixture: a database holding only the active challenge. -/
def sampleActiveDb : DB :=
  { dailyChallenges := [sampleActiveChallenge],
    dailyChallengeAttempts := [],
    userChallengeStats := [],
    nextAttemptId := 1,
    nextStatsId := 1 }

/-- Witness for C8 at a concrete active challenge: the returned attempt
row carries the defaults and the server-assigned id and timestamp. -/
theorem recordAttempt_defaults_and_result_witness :
    (recordAttempt (some { id := "u" })
        { challengeId := 1, guess := "apple", isCorrect := none,
          attemptNumber := none } 7 sampleActiveDb).1
      = .ok { id := 1, challengeId := 1, userId := "u", guess := "apple",
              isCorrect := false, attemptNumber := 1, createdAt := 7 } :=
  (recordAttempt_defaults_and_result { id := "u" } 1 "apple" 7 sampleActiveDb
    sampleActiveChallenge (by decide) rfl).2.1

/-- Helper: from an existing row, any outcome sequence adds its length to
totalPlayed and its number of correct outcomes to totalSolved. -/
theorem applySeq_some_counts (uid : String)
    (steps : List (Bool × String × Nat)) :
    ∀ s : UserStats,
      ∃ r, applySeq uid steps (some s) = some r ∧
        r.totalPlayed = s.totalPlayed + steps.length ∧
        r.totalSolved = s.totalSolved + (steps.filter (fun st => st.1)).length := by
  induction steps with
  | nil => intro s; exact ⟨s, rfl, by simp, by simp⟩
  | cons hd rest ih =>
    intro s
    obtain ⟨b, d, t⟩ := hd
    obtain ⟨r, hr, hp, hs⟩ := ih (updatedStats (some s) b d uid t)
    refine ⟨r, hr, ?_, ?_⟩
    · rw [hp]; simp [updatedStats]; omega
    · rw [hs]
      cases b
      · simp [updatedStats, List.filter]
      · simp [updatedStats, List.filter]; omega

/-- C2: for every outcome sequence applied from a fresh user, totalPlayed
equals the number of outcomes and totalSolved equals the number of correct
outcomes among them. -/
theorem applySeq_fresh_counts (uid : String)
    (steps : List (Bool × String × Nat)) (r : UserStats)
    (h : applySeq uid steps none = some r) :
    r.totalPlayed = steps.length ∧
    r.totalSolved = (steps.filter (fun st => st.1)).length := by
  cases steps with
  | nil => simp [applySeq] at h
  | cons hd rest =>
    obtain ⟨b, d, t⟩ := hd
    simp only [applySeq] at h
    obtain ⟨r2, hr, hp, hs⟩ := applySeq_some_counts uid rest (updatedStats none b d uid t)
    rw [hr] at h
    injection h with h
    subst h
    constructor
    · rw [hp]; cases b <;> simp [updatedStats] <;> omega
    · rw [hs]
      cases b
      · simp [updatedStats, List.filter]
      · simp [updatedStats, List.filter]; omega

/-- Witness for C2 on the concrete sequence correct-then-incorrect. -/
theorem applySeq_fresh_counts_witness :
    (updatedStats (some (updatedStats none true "2025-01-01" "u" 0)) false
        "2025-01-02" "u" 1).totalPlayed = 2 ∧
    (updatedStats (some (updatedStats none true "2025-01-01" "u" 0)) false
        "2025-01-02" "u" 1).totalSolved = 1 := by
  have h := applySeq_fresh_counts "u"
    [(true, "2025-01-01", 0), (false, "2025-01-02", 1)]
    (updatedStats (some (updatedStats none true "2025-01-01" "u" 0)) false
      "2025-01-02" "u" 1) rfl
  simpa using h

/-- Helper: one transition step preserves the two numeric invariants
totalSolved ≤ totalPlayed and currentStreak ≤ bestStreak. -/
theorem statsInv_step (acc : Option UserStats) (b : Bool) (d uid : String)
    (t : Nat)
    (h : ∀ s, acc = some s →
      s.totalSolved ≤ s.totalPlayed ∧ s.currentStreak ≤ s.bestStreak) :
    (updatedStats acc b d uid t).totalSolved ≤ (updatedStats acc b d uid t).totalPlayed ∧
    (updatedStats acc b d uid t).currentStreak ≤ (updatedStats acc b d uid t).bestStreak := by
  cases acc with
  | none => cases b <;> simp [updatedStats]
  | some s =>
    obtain ⟨h1, h2⟩ := h s rfl
    cases b <;> simp [updatedStats] <;> omega

/-- Helper: the invariants are preserved along any sequence of
transitions. -/
theorem applySeq_inv (uid : String) (steps : List (Bool × String × Nat)) :
    ∀ acc : Option UserStats,
      (∀ s, acc = some s →
        s.totalSolved ≤ s.totalPlayed ∧ s.currentStreak ≤ s.bestStreak) →
      ∀ r, applySeq uid steps acc = some r →
        r.totalSolved ≤ r.totalPlayed ∧ r.currentStreak ≤ r.bestStreak := by
  induction steps with
  | nil => intro acc h r hr; exact h r hr
  | cons hd rest ih =>
    obtain ⟨b, d, t⟩ := hd
    intro acc h r hr
    simp only [applySeq] at hr
    refine ih (some (updatedStats acc b d uid t)) ?_ r hr
    intro s hs
    injection hs with hs
    subst hs
    exact statsInv_step acc b d uid t h

/-- C3: after any single-threaded outcome sequence from a fresh user, the
resulting stats satisfy totalSolved ≤ totalPlayed and currentStreak ≤
bestStreak, and one further application never decreases bestStreak. -/
theorem applySeq_fresh_invariants (uid : String)
    (steps : List (Bool × String × Nat)) (b : Bool) (d : String) (t : Nat)
    (r : UserStats) (h : applySeq uid steps none = some r) :
    r.totalSolved ≤ r.totalPlayed ∧ r.currentStreak ≤ r.bestStreak ∧
    r.bestStreak ≤ (updatedStats (some r) b d uid t).bestStreak := by
  obtain ⟨h1, h2⟩ := applySeq_inv uid steps none (by intro s hs; cases hs) r h
  refine ⟨h1, h2, ?_⟩
  cases b <;> simp [updatedStats]

/-- Witness for C3 on the concrete one-step sequence of a single correct
outcome, extended by one incorrect application. -/
theorem applySeq_fresh_invariants_witness :
    (updatedStats none true "2025-01-01" "u" 0).totalSolved
      ≤ (updatedStats none true "2025-01-01" "u" 0).totalPlayed ∧
    (updatedStats none true "2025-01-01" "u" 0).currentStreak
      ≤ (updatedStats none true "2025-01-01" "u" 0).bestStreak ∧
    (updatedStats none true "2025-01-01" "u" 0).bestStreak
      ≤ (updatedStats (some (updatedStats none true "2025-01-01" "u" 0)) false
          "2025-01-02" "u" 1).bestStreak :=
  applySeq_fresh_invariants "u" [(true, "2025-01-01", 0)] false "2025-01-02" 1
    (updatedStats none true "2025-01-01" "u" 0) rfl

/-- Fixture: an empty database, before either concurrent submission. -/
def raceDb0 : DB :=
  { dailyChallenges := [],
    dailyChallengeAttempts := [],
    userChallengeStats := [],
    nextAttemptId := 1,
    nextStatsId := 1 }

/-- The database after the interleaved schedule in which two concurrent
correct submissions for user "u" both perform their stats read before
either performs its write — exactly the `statsRead`, `updatedStats`,
`statsWrite` operations the recordAttempt handler issues, with the second
write computed from the stale read. -/
def raceDb2 : DB :=
  statsWrite
    (statsWrite raceDb0 (statsRead raceDb0 "u")
      (updatedStats (statsRead raceDb0 "u") true "2025-01-01" "u" 0))
    (statsRead raceDb0 "u")
    (updatedStats (statsRead raceDb0 "u") true "2025-01-01" "u" 0)

/-- C9 fails on the code: with no serialization guard, the interleaving
of two concurrent correct submissions (N = 2) from a fresh user leaves the
observable stats row at totalPlayed = 1, not 2, and leaves two stats rows
for the user. -/
theorem concurrent_correct_lost_update :
    (statsRead raceDb2 "u").map UserStats.totalPlayed = some 1 ∧
    (statsRead raceDb2 "u").map UserStats.totalPlayed ≠ some 2 ∧
    raceDb2.userChallengeStats.length = 2 := by
  decide

end DailyWordChallenge
